import Mathlib

/-
Verification of the computational core of the desalination plant simulator
(src/water_desaline.py).  The model `calculate_outputs` is embedded over the
exact rationals ℚ; Python float arithmetic is modelled by exact arithmetic.
The optimizer described in the design document (a grid search called
findOptimalParameters) has no implementation under src/, so it is modelled
from the specification text and marked as such on its definitions.
-/

namespace Desalination

/-- Engineering constant from the source (line 56): energy cost in dollars
per kWh. -/
def energy_cost_per_kwh : ℚ := 0.12

/-- Constant from the source (line 54): water density in kg per cubic meter.
Declared in the source but consumed by no formula. -/
def water_density : ℚ := 1000

/-- Constant from the source (line 55): latent heat of evaporation in kJ/kg.
Declared in the source but consumed by no formula. -/
def latent_heat_evaporation : ℚ := 2260

/-- The six outputs returned (as a tuple) by calculate_outputs in the
source, in source order. -/
structure PlantMetrics where
  freshwater_production : ℚ
  waste_brine : ℚ
  energy_cost : ℚ
  daily_freshwater_production : ℚ
  carbon_emissions : ℚ
  total_operational_cost : ℚ
deriving Repr, DecidableEq

/-- Embedding of calculate_outputs from src/water_desaline.py, lines 59-85.
Parameters appear in the source order.  plant_capacity may be None in the
source (checkbox disabled), hence Option ℚ.  feedwater_salinity and
plant_capacity are accepted and never read, exactly as in the source. -/
def calculate_outputs (feedwater_salinity : ℚ) (energy_use : ℚ)
    (treatment_efficiency : ℚ) (plant_capacity : Option ℚ)
    (intake_flow_rate : ℚ) (carbon_emission_factor : ℚ)
    (cost_of_chemicals_per_m3 : ℚ) (labor_cost_per_day : ℚ)
    (maintenance_cost_per_day : ℚ) : PlantMetrics :=
  let freshwater_production := treatment_efficiency / 100 * intake_flow_rate
  let waste_brine := intake_flow_rate - freshwater_production
  let energy_cost := energy_use * energy_cost_per_kwh
  let daily_freshwater_production := freshwater_production * 24
  let daily_energy_use := energy_use * daily_freshwater_production
  let carbon_emissions := daily_energy_use * carbon_emission_factor
  let chemical_cost := cost_of_chemicals_per_m3 * daily_freshwater_production
  let total_operational_cost :=
    energy_cost * daily_freshwater_production + chemical_cost
      + labor_cost_per_day + maintenance_cost_per_day
  { freshwater_production := freshwater_production
    waste_brine := waste_brine
    energy_cost := energy_cost
    daily_freshwater_production := daily_freshwater_production
    carbon_emissions := carbon_emissions
    total_operational_cost := total_operational_cost }

/-- Modelled from the spec: the optimizer findOptimalParameters is described
in the design document but has no implementation under src/.  Grid of
energyUse values: 50 evenly spaced points in the closed interval [2, 10],
step 8/49, both ends included. -/
def energyGrid : List ℚ :=
  (List.range 50).map (fun i => 2 + (i : ℚ) * (8 / 49))

/-- Modelled from the spec: grid of treatmentEfficiency values, the 13
integers 30, 35, ..., 90. -/
def efficiencyGrid : List ℚ :=
  (List.range 13).map (fun j => 30 + 5 * (j : ℚ))

/-- Modelled from the spec: the 650 grid pairs in iteration order, energyUse
as the outer loop and treatmentEfficiency as the inner loop, matching the
tie-break order (earlier energyUse value, then earlier efficiency value). -/
def gridPairs : List (ℚ × ℚ) :=
  energyGrid.flatMap (fun e => efficiencyGrid.map (fun t => (e, t)))

/-- Modelled from the spec: the objective of the grid search, the
totalOperationalCost of evaluating the model at a grid pair with all other
parameters held fixed at the values supplied by the caller. -/
def gridCost (fs : ℚ) (pc : Option ℚ) (flow cf cc lc mc : ℚ) (p : ℚ × ℚ) : ℚ :=
  (calculate_outputs fs p.1 p.2 pc flow cf cc lc mc).total_operational_cost

/-- Modelled from the spec: the running-minimum fold of the grid search,
keeping the incumbent unless a later candidate is strictly cheaper, so the
first-encountered minimum among equal costs is retained. -/
def runMin {α : Type} (f : α → ℚ) (x : α) (xs : List α) : α :=
  xs.foldl (fun best y => if f y < f best then y else best) x

/-- Modelled from the spec: the winning grid pair of the exhaustive search,
seeded with the first grid pair and folded over the rest in iteration
order. -/
def optimalPair (fs : ℚ) (pc : Option ℚ) (flow cf cc lc mc : ℚ) : ℚ × ℚ :=
  match gridPairs with
  | [] => (0, 0)
  | p :: ps => runMin (gridCost fs pc flow cf cc lc mc) p ps

/-- Modelled from the spec: findOptimalParameters returns the winning
energyUse, the winning treatmentEfficiency, and the minimum
totalOperationalCost achieved. -/
def findOptimalParameters (fs : ℚ) (pc : Option ℚ) (flow cf cc lc mc : ℚ) :
    ℚ × ℚ × ℚ :=
  let b := optimalPair fs pc flow cf cc lc mc
  (b.1, b.2, gridCost fs pc flow cf cc lc mc b)

end Desalination

namespace Desalination

/-- The running-minimum fold returns an element no more expensive than the
seed and than every list element; moreover it is the seed itself, or an
element of the list strictly cheaper than the seed and than everything
before it in the list, which is exactly the first-minimum tie-break. -/
theorem runMin_first_argmin {α : Type} (f : α → ℚ) :
    ∀ (xs : List α) (x : α),
      (f (runMin f x xs) ≤ f x ∧ ∀ y ∈ xs, f (runMin f x xs) ≤ f y) ∧
      (runMin f x xs = x ∨
        ∃ l1 l2, xs = l1 ++ runMin f x xs :: l2 ∧
          f (runMin f x xs) < f x ∧ ∀ y ∈ l1, f (runMin f x xs) < f y) := by
  intro xs
  induction xs with
  | nil =>
    intro x
    exact ⟨⟨le_refl _, by intro y hy; cases hy⟩, Or.inl rfl⟩
  | cons y ys ih =>
    intro x
    by_cases hc : f y < f x
    · have hrw : runMin f x (y :: ys) = runMin f y ys := by
        simp [runMin, hc]
      rw [hrw]
      obtain ⟨⟨hle, hall⟩, hcase⟩ := ih y
      refine ⟨⟨le_of_lt (lt_of_le_of_lt hle hc), ?_⟩, ?_⟩
      · intro z hz
        rcases List.mem_cons.mp hz with h | h
        · rw [h]; exact hle
        · exact hall z h
      · right
        rcases hcase with heq | ⟨l1, l2, hsplit, hlt, hpre⟩
        · exact ⟨[], ys, by rw [heq]; rfl, by rw [heq]; exact hc, by intro z hz; cases hz⟩
        · refine ⟨y :: l1, l2, by rw [List.cons_append, ← hsplit], lt_trans hlt hc, ?_⟩
          intro z hz
          rcases List.mem_cons.mp hz with h | h
          · rw [h]; exact hlt
          · exact hpre z h
    · have hxy : f x ≤ f y := le_of_not_lt hc
      have hrw : runMin f x (y :: ys) = runMin f x ys := by
        simp [runMin, hc]
      rw [hrw]
      obtain ⟨⟨hle, hall⟩, hcase⟩ := ih x
      refine ⟨⟨hle, ?_⟩, ?_⟩
      · intro z hz
        rcases List.mem_cons.mp hz with h | h
        · rw [h]; exact le_trans hle hxy
        · exact hall z h
      · rcases hcase with heq | ⟨l1, l2, hsplit, hlt, hpre⟩
        · exact Or.inl heq
        · refine Or.inr ⟨y :: l1, l2, by rw [List.cons_append, ← hsplit], hlt, ?_⟩
          intro z hz
          rcases List.mem_cons.mp hz with h | h
          · rw [h]; exact lt_of_lt_of_le hlt hxy
          · exact hpre z h

set_option maxRecDepth 10000 in
/-- The grid has exactly 650 pairs (50 energy values times 13 efficiency
values). -/
theorem gridPairs_length : gridPairs.length = 650 := by decide

/-- C2: for every choice of fixed parameters, findOptimalParameters searches
all 650 grid pairs (energyUse over 50 evenly spaced points in [2, 10],
treatmentEfficiency over the 13 integers 30, 35, ..., 90, as built into
gridPairs) and returns a grid pair together with its
totalOperationalCost, such that this cost is a minimum over the whole grid
and every pair preceding the winner in iteration order is strictly more
expensive: the first-encountered minimum under strict less-than wins. -/
theorem findOptimalParameters_spec (fs : ℚ) (pc : Option ℚ)
    (flow cf cc lc mc : ℚ) :
    gridPairs.length = 650 ∧
    findOptimalParameters fs pc flow cf cc lc mc
      = ((optimalPair fs pc flow cf cc lc mc).1,
         (optimalPair fs pc flow cf cc lc mc).2,
         gridCost fs pc flow cf cc lc mc (optimalPair fs pc flow cf cc lc mc)) ∧
    ∃ l1 l2,
      gridPairs = l1 ++ optimalPair fs pc flow cf cc lc mc :: l2 ∧
      (∀ p ∈ gridPairs,
        gridCost fs pc flow cf cc lc mc (optimalPair fs pc flow cf cc lc mc)
          ≤ gridCost fs pc flow cf cc lc mc p) ∧
      ∀ p ∈ l1,
        gridCost fs pc flow cf cc lc mc (optimalPair fs pc flow cf cc lc mc)
          < gridCost fs pc flow cf cc lc mc p := by
  refine ⟨gridPairs_length, rfl, ?_⟩
  cases hg : gridPairs with
  | nil =>
    exfalso
    have := gridPairs_length
    rw [hg] at this
    simp at this
  | cons p ps =>
    have hopt : optimalPair fs pc flow cf cc lc mc
        = runMin (gridCost fs pc flow cf cc lc mc) p ps := by
      simp only [optimalPair, hg]
    set f := gridCost fs pc flow cf cc lc mc with hf
    obtain ⟨⟨hle, hall⟩, hcase⟩ := runMin_first_argmin f ps p
    rw [hopt]
    rcases hcase with heq | ⟨l1, l2, hsplit, hlt, hpre⟩
    · refine ⟨[], ps, by rw [heq]; rfl, ?_, by intro z hz; cases hz⟩
      intro q hq
      rcases List.mem_cons.mp hq with h | h
      · rw [h]; exact hle
      · exact hall q h
    · refine ⟨p :: l1, l2, by rw [List.cons_append, ← hsplit], ?_, ?_⟩
      · intro q hq
        rcases List.mem_cons.mp hq with h | h
        · rw [h]; exact le_of_lt hlt
        · exact hall q h
      · intro z hz
        rcases List.mem_cons.mp hz with h | h
        · rw [h]; exact hlt
        · exact hpre z h

/-- C1: for every input with treatmentEfficiency in [0,100] and
intakeFlowRate ≥ 0, calculate_outputs returns outputs with
freshwaterProduction + wasteBrine equal to intakeFlowRate exactly. -/
theorem mass_balance (fs e te : ℚ) (pc : Option ℚ) (flow cf cc lc mc : ℚ)
    (hte0 : 0 ≤ te) (hte1 : te ≤ 100) (hflow : 0 ≤ flow) :
    (calculate_outputs fs e te pc flow cf cc lc mc).freshwater_production
      + (calculate_outputs fs e te pc flow cf cc lc mc).waste_brine = flow := by
  simp [calculate_outputs]

/-- Witness for C1 at a concrete valid input. -/
theorem mass_balance_witness :
    (0:ℚ) ≤ 50 ∧ (50:ℚ) ≤ 100 ∧ (0:ℚ) ≤ 100 ∧
    (calculate_outputs 35000 3.5 50 (some 10000) 100 0.5 0.25 500 200).freshwater_production
      + (calculate_outputs 35000 3.5 50 (some 10000) 100 0.5 0.25 500 200).waste_brine
        = 100 :=
  ⟨by norm_num, by norm_num, by norm_num,
    mass_balance 35000 3.5 50 (some 10000) 100 0.5 0.25 500 200
      (by norm_num) (by norm_num) (by norm_num)⟩

/-- C3: the concrete scenario from the spec.  feedwaterSalinity and
plantCapacity are universally quantified since the claim lets them be
arbitrary. -/
theorem concrete_scenario (fs : ℚ) (pc : Option ℚ) :
    calculate_outputs fs 3.5 50 pc 100 0.5 0.25 500 200 =
      { freshwater_production := 50
        waste_brine := 50
        energy_cost := 0.42
        daily_freshwater_production := 1200
        carbon_emissions := 2100
        total_operational_cost := 1504 } := by
  simp only [calculate_outputs, energy_cost_per_kwh, PlantMetrics.mk.injEq]
  norm_num

/-- C4 counterexample: with intakeFlowRate = 0 the two runs agree on all
parameters except treatmentEfficiency (50 < 60), yet freshwaterProduction is
not strictly larger for the larger efficiency (both are 0), refuting the
claim as stated. -/
theorem treatment_monotone_counterexample :
    (50:ℚ) < 60 ∧
    ¬ ((calculate_outputs 35000 3.5 50 none 0 0.5 0.25 500 200).freshwater_production
        < (calculate_outputs 35000 3.5 60 none 0 0.5 0.25 500 200).freshwater_production) := by
  constructor
  · norm_num
  · simp [calculate_outputs]

/-- C4 amended: for every pair of inputs agreeing on all parameters except
treatmentEfficiency, with intakeFlowRate > 0, the run with the strictly
larger treatmentEfficiency yields strictly larger freshwaterProduction and
strictly smaller wasteBrine. -/
theorem treatment_monotone (fs e : ℚ) (pc : Option ℚ) (flow cf cc lc mc te1 te2 : ℚ)
    (hflow : 0 < flow) (hte : te1 < te2) :
    (calculate_outputs fs e te1 pc flow cf cc lc mc).freshwater_production
      < (calculate_outputs fs e te2 pc flow cf cc lc mc).freshwater_production ∧
    (calculate_outputs fs e te2 pc flow cf cc lc mc).waste_brine
      < (calculate_outputs fs e te1 pc flow cf cc lc mc).waste_brine := by
  have hkey : te1 / 100 * flow < te2 / 100 * flow := by
    have h1 : te1 / 100 < te2 / 100 := by linarith
    exact mul_lt_mul_of_pos_right h1 hflow
  constructor
  · simpa [calculate_outputs] using hkey
  · simp only [calculate_outputs]
    linarith

/-- Witness for the amended C4 at a concrete input. -/
theorem treatment_monotone_witness :
    (0:ℚ) < 100 ∧ (50:ℚ) < 60 ∧
    ((calculate_outputs 35000 3.5 50 none 100 0.5 0.25 500 200).freshwater_production
      < (calculate_outputs 35000 3.5 60 none 100 0.5 0.25 500 200).freshwater_production ∧
    (calculate_outputs 35000 3.5 60 none 100 0.5 0.25 500 200).waste_brine
      < (calculate_outputs 35000 3.5 50 none 100 0.5 0.25 500 200).waste_brine) :=
  ⟨by norm_num, by norm_num,
    treatment_monotone 35000 3.5 none 100 0.5 0.25 500 200 50 60
      (by norm_num) (by norm_num)⟩

/-- C5: for every pair of inputs agreeing on all parameters except energyUse,
the run with the strictly larger energyUse yields strictly larger
energyCostPerM3, and, whenever dailyFreshwaterProduction > 0, strictly
larger totalOperationalCost. -/
theorem energy_monotone (fs te : ℚ) (pc : Option ℚ) (flow cf cc lc mc e1 e2 : ℚ)
    (he : e1 < e2) :
    (calculate_outputs fs e1 te pc flow cf cc lc mc).energy_cost
      < (calculate_outputs fs e2 te pc flow cf cc lc mc).energy_cost ∧
    (0 < (calculate_outputs fs e1 te pc flow cf cc lc mc).daily_freshwater_production →
      (calculate_outputs fs e1 te pc flow cf cc lc mc).total_operational_cost
        < (calculate_outputs fs e2 te pc flow cf cc lc mc).total_operational_cost) := by
  constructor
  · simp only [calculate_outputs, energy_cost_per_kwh]
    have h12 : (0:ℚ) < 0.12 := by norm_num
    nlinarith
  · simp only [calculate_outputs, energy_cost_per_kwh]
    intro hpos
    have := mul_lt_mul_of_pos_right
      (show e1 * (0.12:ℚ) < e2 * 0.12 by linarith) hpos
    linarith

/-- Witness for C5 at a concrete input. -/
theorem energy_monotone_witness :
    (3.5:ℚ) < 4 ∧
    ((calculate_outputs 35000 3.5 50 none 100 0.5 0.25 500 200).energy_cost
      < (calculate_outputs 35000 4 50 none 100 0.5 0.25 500 200).energy_cost ∧
    (0 < (calculate_outputs 35000 3.5 50 none 100 0.5 0.25 500 200).daily_freshwater_production →
      (calculate_outputs 35000 3.5 50 none 100 0.5 0.25 500 200).total_operational_cost
        < (calculate_outputs 35000 4 50 none 100 0.5 0.25 500 200).total_operational_cost)) :=
  ⟨by norm_num,
    energy_monotone 35000 50 none 100 0.5 0.25 500 200 3.5 4 (by norm_num)⟩

/-- C6: with energyUse = 0, energyCostPerM3 is 0, the energy-derived cost
term energyCostPerM3 * dailyFreshwaterProduction is 0, and
totalOperationalCost equals chemicalCost + laborCostPerDay +
maintenanceCostPerDay. -/
theorem energy_zero (fs te : ℚ) (pc : Option ℚ) (flow cf cc lc mc : ℚ) :
    (calculate_outputs fs 0 te pc flow cf cc lc mc).energy_cost = 0 ∧
    (calculate_outputs fs 0 te pc flow cf cc lc mc).energy_cost
      * (calculate_outputs fs 0 te pc flow cf cc lc mc).daily_freshwater_production = 0 ∧
    (calculate_outputs fs 0 te pc flow cf cc lc mc).total_operational_cost
      = cc * (calculate_outputs fs 0 te pc flow cf cc lc mc).daily_freshwater_production
        + lc + mc := by
  refine ⟨?_, ?_, ?_⟩ <;> simp [calculate_outputs]

/-- C7: calculate_outputs is a total deterministic function: every input
produces exactly one output record, with no error branch.  (In the exact
rational embedding every value is a finite number; the IEEE NaN/infinity
caveat of the spec has no analogue here.) -/
theorem evaluate_total (fs e te : ℚ) (pc : Option ℚ) (flow cf cc lc mc : ℚ) :
    ∃! m : PlantMetrics, calculate_outputs fs e te pc flow cf cc lc mc = m :=
  ⟨calculate_outputs fs e te pc flow cf cc lc mc, rfl, fun _ h => h.symm⟩

/-- C8: two inputs differing only in feedwaterSalinity and/or plantCapacity
produce identical outputs in all six fields, while both parameters remain
arguments of calculate_outputs (visible in its signature). -/
theorem salinity_capacity_unused (fs1 fs2 e te : ℚ) (pc1 pc2 : Option ℚ)
    (flow cf cc lc mc : ℚ) :
    calculate_outputs fs1 e te pc1 flow cf cc lc mc
      = calculate_outputs fs2 e te pc2 flow cf cc lc mc := rfl

/-- C9: with treatmentEfficiency in [0,100] and all the other numeric
parameters nonnegative, each of the six outputs is nonnegative. -/
theorem outputs_nonneg (fs e te : ℚ) (pc : Option ℚ) (flow cf cc lc mc : ℚ)
    (hte0 : 0 ≤ te) (hte1 : te ≤ 100) (he : 0 ≤ e) (hflow : 0 ≤ flow)
    (hcf : 0 ≤ cf) (hcc : 0 ≤ cc) (hlc : 0 ≤ lc) (hmc : 0 ≤ mc) :
    0 ≤ (calculate_outputs fs e te pc flow cf cc lc mc).freshwater_production ∧
    0 ≤ (calculate_outputs fs e te pc flow cf cc lc mc).waste_brine ∧
    0 ≤ (calculate_outputs fs e te pc flow cf cc lc mc).energy_cost ∧
    0 ≤ (calculate_outputs fs e te pc flow cf cc lc mc).daily_freshwater_production ∧
    0 ≤ (calculate_outputs fs e te pc flow cf cc lc mc).carbon_emissions ∧
    0 ≤ (calculate_outputs fs e te pc flow cf cc lc mc).total_operational_cost := by
  have hfresh : (0:ℚ) ≤ te / 100 * flow :=
    mul_nonneg (div_nonneg hte0 (by norm_num)) hflow
  have hbrine : (0:ℚ) ≤ flow - te / 100 * flow := by
    nlinarith [mul_nonneg hflow (show (0:ℚ) ≤ 100 - te by linarith)]
  have hec : (0:ℚ) ≤ e * (0.12:ℚ) := by positivity
  have hdaily : (0:ℚ) ≤ te / 100 * flow * 24 := by linarith
  refine ⟨?_, ?_, ?_, ?_, ?_, ?_⟩ <;>
    simp only [calculate_outputs, energy_cost_per_kwh]
  · exact hfresh
  · exact hbrine
  · exact hec
  · exact hdaily
  · exact mul_nonneg (mul_nonneg he hdaily) hcf
  · have h1 : (0:ℚ) ≤ e * 0.12 * (te / 100 * flow * 24) := mul_nonneg hec hdaily
    have h2 : (0:ℚ) ≤ cc * (te / 100 * flow * 24) := mul_nonneg hcc hdaily
    linarith

/-- Witness for C9 at a concrete input. -/
theorem outputs_nonneg_witness :
    ((0:ℚ) ≤ 50 ∧ (50:ℚ) ≤ 100 ∧ (0:ℚ) ≤ 3.5 ∧ (0:ℚ) ≤ 100 ∧ (0:ℚ) ≤ 0.5 ∧
      (0:ℚ) ≤ 0.25 ∧ (0:ℚ) ≤ 500 ∧ (0:ℚ) ≤ 200) ∧
    0 ≤ (calculate_outputs 35000 3.5 50 (some 10000) 100 0.5 0.25 500 200).total_operational_cost :=
  ⟨by norm_num,
    (outputs_nonneg 35000 3.5 50 (some 10000) 100 0.5 0.25 500 200
      (by norm_num) (by norm_num) (by norm_num) (by norm_num)
      (by norm_num) (by norm_num) (by norm_num) (by norm_num)).2.2.2.2.2⟩

/-- C10: two inputs differing only in carbonEmissionFactor agree on
freshwaterProduction, wasteBrine, energyCostPerM3,
dailyFreshwaterProduction and totalOperationalCost; only carbonEmissions
may differ. -/
theorem emission_factor_isolated (fs e te : ℚ) (pc : Option ℚ)
    (flow cf1 cf2 cc lc mc : ℚ) :
    (calculate_outputs fs e te pc flow cf1 cc lc mc).freshwater_production
      = (calculate_outputs fs e te pc flow cf2 cc lc mc).freshwater_production ∧
    (calculate_outputs fs e te pc flow cf1 cc lc mc).waste_brine
      = (calculate_outputs fs e te pc flow cf2 cc lc mc).waste_brine ∧
    (calculate_outputs fs e te pc flow cf1 cc lc mc).energy_cost
      = (calculate_outputs fs e te pc flow cf2 cc lc mc).energy_cost ∧
    (calculate_outputs fs e te pc flow cf1 cc lc mc).daily_freshwater_production
      = (calculate_outputs fs e te pc flow cf2 cc lc mc).daily_freshwater_production ∧
    (calculate_outputs fs e te pc flow cf1 cc lc mc).total_operational_cost
      = (calculate_outputs fs e te pc flow cf2 cc lc mc).total_operational_cost :=
  ⟨rfl, rfl, rfl, rfl, rfl⟩

end Desalination
